import Mathlib

/-!
Verification of the Entirius PyLib Template module
(src/entirius_pylib_template/template.py): a configuration value object,
a greeting function, an input validator, and a shape-dispatching data
processor. The definitions below are a shallow embedding of that module;
the theorems settle the specified behaviour against it.
-/

namespace EntiriusTemplate

/-- Dynamic (Python-style) values, covering the kinds the module inspects:
strings, integers, booleans, None, lists and dictionaries (modelled as
association lists in insertion order). -/
inductive PyValue where
  | str (s : String)
  | int (n : Int)
  | bool (b : Bool)
  | none
  | list (items : List PyValue)
  | dict (entries : List (PyValue × PyValue))

/-- Python's type(x).__name__ for the modelled value kinds. -/
def typeName : PyValue → String
  | .str _ => "str"
  | .int _ => "int"
  | .bool _ => "bool"
  | .none => "NoneType"
  | .list _ => "list"
  | .dict _ => "dict"

/-- isinstance(x, str) on modelled values. -/
def PyValue.isStr : PyValue → Bool
  | .str _ => true
  | _ => false

/-- The x is None test on modelled values. -/
def PyValue.isNone : PyValue → Bool
  | .none => true
  | _ => false

/-- isinstance(x, list) on modelled values. -/
def PyValue.isList : PyValue → Bool
  | .list _ => true
  | _ => false

/-- isinstance(x, dict) on modelled values. -/
def PyValue.isDict : PyValue → Bool
  | .dict _ => true
  | _ => false

/-- The single TemplateError exception family of the module, distinguished
in the source only by its message text; modelled as a tagged variant per
raise site, carrying the dynamic part of the message where there is one. -/
inductive TemplateError where
  | configError
  | inputTypeError (msg : String)
  | elementTypeError (gotType : String)
  | keyTypeError
  | unsupportedTypeError (gotType : String)

/-- TemplateConfig: the configuration dataclass. The source stores
allowed_chars as a regex character-class string; following the module's
usage (a simple fixed character set), it is modelled as the set of
characters the class accepts, as a Boolean predicate. Lengths are Int,
as Python integers are unbounded and the source never restricts them. -/
structure TemplateConfig where
  max_length : Int
  min_length : Int
  allowed_chars : Char → Bool
  strip_whitespace : Bool

/-- The character set of the default allowed_chars class [a-zA-Z0-9_-]. -/
def defaultAllowedChars (c : Char) : Bool :=
  (decide ('a' ≤ c) && decide (c ≤ 'z')) ||
  (decide ('A' ≤ c) && decide (c ≤ 'Z')) ||
  (decide ('0' ≤ c) && decide (c ≤ '9')) ||
  c == '_' || c == '-'

/-- TemplateConfig() with all defaults: max_length=100, min_length=1,
allowed_chars = [a-zA-Z0-9_-], strip_whitespace=True. -/
def defaultConfig : TemplateConfig :=
  TemplateConfig.mk 100 1 defaultAllowedChars true

/-- Constructing a TemplateConfig runs __post_init__, which raises
TemplateError when max_length < min_length. -/
def mkTemplateConfig (max_length min_length : Int) (allowed_chars : Char → Bool)
    (strip_whitespace : Bool) : Except TemplateError TemplateConfig :=
  if max_length < min_length then Except.error TemplateError.configError
  else Except.ok (TemplateConfig.mk max_length min_length allowed_chars strip_whitespace)

/-- The ASCII whitespace characters removed by Python's str.strip(). -/
def pyIsSpace (c : Char) : Bool :=
  c == ' ' || c == '\t' || c == '\n' || c == '\x0b' || c == '\x0c' || c == '\r'

/-- Python str.strip(): drop leading and trailing whitespace. -/
def pyStrip (s : String) : String :=
  String.mk (((s.data.dropWhile pyIsSpace).reverse.dropWhile pyIsSpace).reverse)

/-- The conditional strip the module performs in several places:
value.strip() if config.strip_whitespace else value. -/
def stripIf (cfg : TemplateConfig) (s : String) : String :=
  if cfg.strip_whitespace then pyStrip s else s

/-- Semantics of Python re.match with the anchored pattern built from a
character class, f-string "^" ++ class ++ "+$", on a list of characters:
one or more characters of the class must cover the whole input, except
that the dollar anchor also matches just before one trailing newline. -/
def regexClassPlus (cls : Char → Bool) (l : List Char) : Bool :=
  (!l.isEmpty && l.all cls) ||
  (l.getLast? == some '\n' && (!l.dropLast.isEmpty && l.dropLast.all cls))

/-- validate_input(value, config): strip when configured, reject on length
outside [min_length, max_length], reject when the anchored class pattern
does not match, otherwise accept. -/
def validate_input (value : String) (cfg : TemplateConfig) : Bool :=
  let v := stripIf cfg value
  if (v.length : Int) < cfg.min_length ∨ cfg.max_length < (v.length : Int) then false
  else if !(regexClassPlus cfg.allowed_chars v.data) then false
  else true

/-- One element of the list branch's processed_data:
a value, valid, length record. -/
structure ItemResult where
  value : String
  valid : Bool
  length : Nat

/-- One entry of the dict branch's processed_data: original_value,
key_valid, value_type. -/
structure DictEntry where
  original_value : PyValue
  key_valid : Bool
  value_type : String

/-- The config_used metadata of a process_data result. -/
structure ConfigUsed where
  max_length : Int
  min_length : Int

/-- The processed_data payload together with the branch-specific counters
of a process_data result. -/
inductive ProcessedData where
  | strData (processed : String) (length : Nat)
  | listData (items : List ItemResult) (total_items : Nat) (valid_items : Nat)
  | dictData (entries : List (String × DictEntry)) (total_keys : Nat) (valid_keys : Nat)

/-- The result dictionary of process_data. -/
structure ProcessResult where
  input_type : String
  processed_at : String
  config_used : ConfigUsed
  processed_data : ProcessedData
  valid : Bool

/-- The list branch's loop: per string element build the
value/valid/length record and count the valid ones; raise on the first
non-string element, with its type in the message. -/
def processItems (cfg : TemplateConfig) :
    List PyValue → Except TemplateError (List ItemResult × Nat)
  | [] => Except.ok ([], 0)
  | item :: rest =>
    match item with
    | PyValue.str s =>
      match processItems cfg rest with
      | Except.ok (l, n) =>
          Except.ok (ItemResult.mk (stripIf cfg s) (validate_input s cfg) (stripIf cfg s).length :: l,
            (if validate_input s cfg then 1 else 0) + n)
      | Except.error e => Except.error e
    | other => Except.error (TemplateError.elementTypeError (typeName other))

/-- Python dict assignment d[k] = e on an insertion-ordered association
list: overwrite in place when the key exists, otherwise append. -/
def dictInsert (d : List (String × DictEntry)) (k : String) (e : DictEntry) :
    List (String × DictEntry) :=
  match d with
  | [] => [(k, e)]
  | (k2, e2) :: rest => if k2 = k then (k, e) :: rest else (k2, e2) :: dictInsert rest k e

/-- The dict branch's loop: raise on a non-string key; otherwise validate
the original key, strip it per config, store the entry under the stripped
key, and count valid keys. -/
def processEntries (cfg : TemplateConfig) (acc : List (String × DictEntry)) (n : Nat) :
    List (PyValue × PyValue) → Except TemplateError (List (String × DictEntry) × Nat)
  | [] => Except.ok (acc, n)
  | (k, v) :: rest =>
    match k with
    | PyValue.str ks =>
        processEntries cfg
          (dictInsert acc (stripIf cfg ks) (DictEntry.mk v (validate_input ks cfg) (typeName v)))
          (n + (if validate_input ks cfg then 1 else 0)) rest
    | _ => Except.error TemplateError.keyTypeError

/-- process_data(data, config): dispatch on the structural kind of the
input; strings are stripped and validated, lists and dicts run their
respective loops, anything else raises the unsupported-type error. -/
def process_data (data : PyValue) (cfg : TemplateConfig) :
    Except TemplateError ProcessResult :=
  match data with
  | PyValue.str s =>
      let processed := stripIf cfg s
      Except.ok (ProcessResult.mk "str" "timestamp_placeholder"
        (ConfigUsed.mk cfg.max_length cfg.min_length)
        (ProcessedData.strData processed processed.length) (validate_input s cfg))
  | PyValue.list l =>
      match processItems cfg l with
      | Except.error e => Except.error e
      | Except.ok (outItems, vi) =>
          Except.ok (ProcessResult.mk "list" "timestamp_placeholder"
            (ConfigUsed.mk cfg.max_length cfg.min_length)
            (ProcessedData.listData outItems l.length vi) (vi == l.length))
  | PyValue.dict d =>
      match processEntries cfg [] 0 d with
      | Except.error e => Except.error e
      | Except.ok (pd, vk) =>
          Except.ok (ProcessResult.mk "dict" "timestamp_placeholder"
            (ConfigUsed.mk cfg.max_length cfg.min_length)
            (ProcessedData.dictData pd d.length vk) (vk == d.length))
  | other => Except.error (TemplateError.unsupportedTypeError (typeName other))

/-- hello_entirius(name): the name defaults to None, and a name that is
None (absent or explicitly passed) is replaced by "World" before the
string check, so only a non-string, non-None argument raises; otherwise
the greeting is returned. -/
def hello_entirius : Option PyValue → Except TemplateError String
  | Option.none => Except.ok ("Hello, " ++ "World" ++ "! Welcome to Entirius.")
  | Option.some PyValue.none => Except.ok ("Hello, " ++ "World" ++ "! Welcome to Entirius.")
  | Option.some (PyValue.str s) => Except.ok ("Hello, " ++ s ++ "! Welcome to Entirius.")
  | Option.some _ => Except.error (TemplateError.inputTypeError "Name must be a string")

/-- The per-element record the list branch builds for a string element. -/
def mkItem (cfg : TemplateConfig) (s : String) : ItemResult :=
  ItemResult.mk (stripIf cfg s) (validate_input s cfg) (stripIf cfg s).length

/-- The processed_data dictionary the dict branch accumulates, as a fold
of Python dict assignment over the entries. -/
def buildDict (cfg : TemplateConfig) (acc : List (String × DictEntry)) :
    List (String × PyValue) → List (String × DictEntry)
  | [] => acc
  | (k, v) :: rest =>
      buildDict cfg
        (dictInsert acc (stripIf cfg k) (DictEntry.mk v (validate_input k cfg) (typeName v))) rest

/-- The list of per-element records held by a process_data result
(empty for the non-list shapes). -/
def resultItems (r : ProcessResult) : List ItemResult :=
  match r.processed_data with
  | ProcessedData.listData items _ _ => items
  | _ => []

/- ### Helper lemmas -/

theorem validate_input_true_bounds {s : String} {cfg : TemplateConfig}
    (h : validate_input s cfg = true) :
    cfg.min_length ≤ ((stripIf cfg s).length : Int) ∧
      ((stripIf cfg s).length : Int) ≤ cfg.max_length := by
  by_cases hb : ((stripIf cfg s).length : Int) < cfg.min_length ∨
      cfg.max_length < ((stripIf cfg s).length : Int)
  · simp [validate_input, hb] at h
  · push_neg at hb
    exact ⟨hb.1, hb.2⟩

theorem regexClassPlus_eq_true_iff (cls : Char → Bool) (l : List Char) :
    regexClassPlus cls l = true ↔
      ((l ≠ [] ∧ ∀ c ∈ l, cls c = true) ∨
       (l.getLast? = some '\n' ∧ l.dropLast ≠ [] ∧ ∀ c ∈ l.dropLast, cls c = true)) := by
  simp [regexClassPlus, List.all_eq_true, List.isEmpty_iff, Bool.or_eq_true, Bool.and_eq_true]

theorem processItems_map_str (cfg : TemplateConfig) (items : List String) :
    processItems cfg (items.map PyValue.str) =
      Except.ok (items.map (mkItem cfg), items.countP (fun s => validate_input s cfg)) := by
  induction items with
  | nil => rfl
  | cons s rest ih =>
    simp [processItems, ih, mkItem, List.countP_cons]
    omega

theorem processEntries_map_str (cfg : TemplateConfig) (entries : List (String × PyValue)) :
    ∀ (acc : List (String × DictEntry)) (n : Nat),
      processEntries cfg acc n (entries.map (fun p => (PyValue.str p.1, p.2))) =
        Except.ok (buildDict cfg acc entries,
          n + entries.countP (fun p => validate_input p.1 cfg)) := by
  induction entries with
  | nil => intro acc n; rfl
  | cons p rest ih =>
    intro acc n
    obtain ⟨k, v⟩ := p
    simp [processEntries, buildDict, ih, List.countP_cons]
    omega

theorem mem_dictInsert {pr : String × DictEntry} {d : List (String × DictEntry)}
    {k : String} {e : DictEntry} (h : pr ∈ dictInsert d k e) :
    pr = (k, e) ∨ pr ∈ d := by
  induction d with
  | nil => simpa [dictInsert] using h
  | cons hd tl ih =>
    obtain ⟨k2, e2⟩ := hd
    by_cases hk : k2 = k
    · simp only [dictInsert, if_pos hk] at h
      rcases List.mem_cons.mp h with h1 | h2
      · exact Or.inl h1
      · exact Or.inr (List.mem_cons_of_mem _ h2)
    · simp only [dictInsert, if_neg hk] at h
      rcases List.mem_cons.mp h with h1 | h2
      · exact Or.inr (h1 ▸ List.mem_cons_self _ _)
      · rcases ih h2 with h3 | h4
        · exact Or.inl h3
        · exact Or.inr (List.mem_cons_of_mem _ h4)

theorem mem_buildDict (cfg : TemplateConfig) (entries : List (String × PyValue)) :
    ∀ (acc : List (String × DictEntry)) (pr : String × DictEntry),
      pr ∈ buildDict cfg acc entries →
      pr ∈ acc ∨ ∃ q ∈ entries,
        pr = (stripIf cfg q.1, DictEntry.mk q.2 (validate_input q.1 cfg) (typeName q.2)) := by
  induction entries with
  | nil => intro acc pr h; exact Or.inl h
  | cons q rest ih =>
    intro acc pr h
    obtain ⟨k, v⟩ := q
    simp only [buildDict] at h
    rcases ih _ pr h with hacc | ⟨q2, hq2, he⟩
    · rcases mem_dictInsert hacc with he | hacc2
      · exact Or.inr ⟨(k, v), List.mem_cons_self _ _, he⟩
      · exact Or.inl hacc2
    · exact Or.inr ⟨q2, List.mem_cons_of_mem _ hq2, he⟩

theorem process_data_list_eq (cfg : TemplateConfig) (items : List String) :
    process_data (PyValue.list (items.map PyValue.str)) cfg =
      Except.ok (ProcessResult.mk "list" "timestamp_placeholder"
        (ConfigUsed.mk cfg.max_length cfg.min_length)
        (ProcessedData.listData (items.map (mkItem cfg)) items.length
          (items.countP (fun s => validate_input s cfg)))
        (items.countP (fun s => validate_input s cfg) == items.length)) := by
  simp [process_data, processItems_map_str, List.length_map]

theorem processItems_error_of_bad (cfg : TemplateConfig) (l : List PyValue) :
    (∃ x ∈ l, x.isStr = false) →
      ∃ t, processItems cfg l = Except.error (TemplateError.elementTypeError t) := by
  induction l with
  | nil => intro h; simp at h
  | cons x rest ih =>
    intro h
    cases x with
    | str s =>
      have hrest : ∃ y ∈ rest, y.isStr = false := by
        rcases h with ⟨y, hy, hys⟩
        rcases List.mem_cons.mp hy with rfl | hmem
        · simp [PyValue.isStr] at hys
        · exact ⟨y, hmem, hys⟩
      rcases ih hrest with ⟨t, ht⟩
      exact ⟨t, by simp [processItems, ht]⟩
    | int n => exact ⟨"int", rfl⟩
    | bool b => exact ⟨"bool", rfl⟩
    | none => exact ⟨"NoneType", rfl⟩
    | list l2 => exact ⟨"list", rfl⟩
    | dict d2 => exact ⟨"dict", rfl⟩

theorem processEntries_error_of_bad (cfg : TemplateConfig) (d : List (PyValue × PyValue)) :
    ∀ (acc : List (String × DictEntry)) (n : Nat), (∃ p ∈ d, (Prod.fst p).isStr = false) →
      processEntries cfg acc n d = Except.error TemplateError.keyTypeError := by
  induction d with
  | nil => intro acc n h; simp at h
  | cons p rest ih =>
    intro acc n h
    obtain ⟨k, v⟩ := p
    cases k with
    | str s =>
      have hrest : ∃ q ∈ rest, (Prod.fst q).isStr = false := by
        rcases h with ⟨q, hq, hqs⟩
        rcases List.mem_cons.mp hq with rfl | hmem
        · simp [PyValue.isStr] at hqs
        · exact ⟨q, hmem, hqs⟩
      simpa [processEntries] using ih _ _ hrest
    | int n2 => rfl
    | bool b => rfl
    | none => rfl
    | list l2 => rfl
    | dict d2 => rfl

/- ### Claim C1 -/

/-- The acceptance predicate exactly as claim C1 words it, for comparison
with the code: after the configured strip, the length lies within
[min_length, max_length] and the value is a full-string match of the
allowed class repeated one or more times, i.e. non-empty with every
character in the class. -/
def validateSpecClaim (value : String) (cfg : TemplateConfig) : Bool :=
  let v := stripIf cfg value
  decide (cfg.min_length ≤ (v.length : Int)) && decide ((v.length : Int) ≤ cfg.max_length) &&
    (!v.data.isEmpty && v.data.all cfg.allowed_chars)

/-- The acceptance predicate as amended: same as the claim, except the
match also accepts exactly one trailing newline after the allowed
characters, because the dollar anchor of Python re.match also matches
just before a final newline. -/
def validateSpecAmended (value : String) (cfg : TemplateConfig) : Prop :=
  let v := stripIf cfg value
  (cfg.min_length ≤ (v.length : Int) ∧ (v.length : Int) ≤ cfg.max_length) ∧
    ((v.data ≠ [] ∧ ∀ c ∈ v.data, cfg.allowed_chars c = true) ∨
     (v.data.getLast? = some '\n' ∧ v.data.dropLast ≠ [] ∧
      ∀ c ∈ v.data.dropLast, cfg.allowed_chars c = true))

/-- Claim C1, counterexample: with stripping disabled, the value with a
trailing newline after three allowed characters is accepted by
validate_input although it is not a full-string match of the allowed
class, so the claimed equivalence fails at this configuration and value. -/
theorem validate_input_claim_counterexample :
    validate_input "abc\n" (TemplateConfig.mk 100 1 defaultAllowedChars false) = true ∧
    validateSpecClaim "abc\n" (TemplateConfig.mk 100 1 defaultAllowedChars false) = false :=
  ⟨by decide, by decide⟩

/-- Claim C1 (amended): for every configuration and text value,
validate_input accepts exactly when the (per-config stripped) value has
length within [min_length, max_length] and consists of one or more
allowed characters, possibly followed by one trailing newline. -/
theorem validate_input_iff_amended :
    ∀ (value : String) (cfg : TemplateConfig),
      validate_input value cfg = true ↔ validateSpecAmended value cfg := by
  intro value cfg
  simp only [validate_input, validateSpecAmended]
  split_ifs with h1 h2
  · constructor
    · intro h; simp at h
    · rintro ⟨⟨a, b⟩, _⟩; omega
  · constructor
    · intro h; simp at h
    · rintro ⟨_, hm⟩
      have hr := (regexClassPlus_eq_true_iff cfg.allowed_chars (stripIf cfg value).data).mpr hm
      rw [hr] at h2
      simp at h2
  · constructor
    · intro _
      have hr : regexClassPlus cfg.allowed_chars (stripIf cfg value).data = true := by
        revert h2
        cases regexClassPlus cfg.allowed_chars (stripIf cfg value).data <;> simp
      refine ⟨⟨?_, ?_⟩, (regexClassPlus_eq_true_iff _ _).mp hr⟩ <;> omega
    · intro _; rfl

/-- Witness for the amended claim C1 at a concrete configuration and
value. -/
theorem validate_input_iff_amended_witness :
    validate_input "test_value" defaultConfig = true :=
  (validate_input_iff_amended "test_value" defaultConfig).mpr
    (by unfold validateSpecAmended; decide)

/- ### Claim C5 -/

/-- Claim C5: constructing a TemplateConfig fails with the ConfigError
exactly when max_length < min_length, and every successfully constructed
configuration satisfies min_length ≤ max_length. -/
theorem templateConfig_constructor_spec :
    ∀ (M m : Int) (cls : Char → Bool) (st : Bool),
      (mkTemplateConfig M m cls st = Except.error TemplateError.configError ↔ M < m) ∧
      (∀ cfg : TemplateConfig, mkTemplateConfig M m cls st = Except.ok cfg →
        cfg.min_length ≤ cfg.max_length) := by
  intro M m cls st
  by_cases h : M < m
  · refine ⟨by simp [mkTemplateConfig, h], ?_⟩
    intro cfg hcfg
    simp [mkTemplateConfig, h] at hcfg
  · refine ⟨by simp [mkTemplateConfig, h], ?_⟩
    intro cfg hcfg
    simp only [mkTemplateConfig, if_neg h, Except.ok.injEq] at hcfg
    subst hcfg
    simpa using Int.not_lt.mp h

/-- Witness for claim C5: the configuration with max_length 5 and
min_length 10 fails with the ConfigError, and the default configuration
satisfies the invariant. -/
theorem templateConfig_constructor_spec_witness :
    mkTemplateConfig 5 10 defaultAllowedChars true = Except.error TemplateError.configError ∧
    defaultConfig.min_length ≤ defaultConfig.max_length :=
  ⟨(templateConfig_constructor_spec 5 10 defaultAllowedChars true).1.mpr (by decide),
   (templateConfig_constructor_spec 100 1 defaultAllowedChars true).2 defaultConfig rfl⟩

/- ### Claim C6 -/

/-- Claim C6, counterexample: an explicitly passed None is a non-text
argument, yet the greeting does not fail with the input-type error: the
source replaces a None name by World before the string check runs, so
the claimed failure on every non-text argument is false at None. -/
theorem hello_entirius_claim_counterexample :
    PyValue.isStr PyValue.none = false ∧
    hello_entirius (Option.some PyValue.none) =
      Except.ok "Hello, World! Welcome to Entirius." :=
  ⟨rfl, rfl⟩

/-- Claim C6 (amended): the greeting with no argument returns the World
greeting; an explicitly passed None is treated as an absent argument and
also returns the World greeting; every string name yields the literal
concatenation; and every argument that is neither a string nor None
fails with the input-type error. -/
theorem hello_entirius_spec :
    hello_entirius Option.none = Except.ok "Hello, World! Welcome to Entirius." ∧
    hello_entirius (Option.some PyValue.none) =
      Except.ok "Hello, World! Welcome to Entirius." ∧
    (∀ s : String, hello_entirius (Option.some (PyValue.str s)) =
        Except.ok ("Hello, " ++ s ++ "! Welcome to Entirius.")) ∧
    (∀ v : PyValue, v.isStr = false → v.isNone = false →
        hello_entirius (Option.some v) =
          Except.error (TemplateError.inputTypeError "Name must be a string")) := by
  refine ⟨rfl, rfl, fun s => rfl, ?_⟩
  intro v hv hn
  cases v with
  | str s => simp [PyValue.isStr] at hv
  | none => simp [PyValue.isNone] at hn
  | int n => rfl
  | bool b => rfl
  | list l => rfl
  | dict d => rfl

/-- Witness for the amended claim C6 at the concrete name Dev and the
non-string, non-None argument 123. -/
theorem hello_entirius_spec_witness :
    hello_entirius (Option.some (PyValue.str "Dev")) =
      Except.ok "Hello, Dev! Welcome to Entirius." ∧
    hello_entirius (Option.some (PyValue.int 123)) =
      Except.error (TemplateError.inputTypeError "Name must be a string") :=
  ⟨hello_entirius_spec.2.2.1 "Dev", hello_entirius_spec.2.2.2 (PyValue.int 123) rfl rfl⟩

/- ### Claim C7 -/

/-- Claim C7: under the default configuration, the value test_value is
accepted, the empty value is rejected, a value of 101 copies of the
letter a is rejected, and a value containing a space is rejected. -/
theorem validate_default_examples :
    validate_input "test_value" defaultConfig = true ∧
    validate_input "" defaultConfig = false ∧
    validate_input (String.mk (List.replicate 101 'a')) defaultConfig = false ∧
    validate_input "test value" defaultConfig = false :=
  ⟨by decide, by decide, by decide, by decide⟩

/- ### Claim C8 -/

/-- Claim C8: the value with surrounding spaces is accepted when
strip_whitespace is set and rejected when it is not, other fields at
their defaults. -/
theorem validate_strip_toggle_examples :
    validate_input "  test  " (TemplateConfig.mk 100 1 defaultAllowedChars true) = true ∧
    validate_input "  test  " (TemplateConfig.mk 100 1 defaultAllowedChars false) = false :=
  ⟨by decide, by decide⟩

/- ### Claim C2 -/

/-- Claim C2: processing a list of strings succeeds with one record per
element holding the per-config stripped value, its validity under
validate_input, and the stripped value's length; the total equals the
list's length, the valid count is the number of elements validate_input
accepts, and the overall validity is their equality. In particular the
list a, b, bad value under the default configuration yields total 3,
valid count 2 and overall validity false. -/
theorem process_data_list_spec :
    (∀ (cfg : TemplateConfig) (items : List String),
      process_data (PyValue.list (items.map PyValue.str)) cfg =
        Except.ok (ProcessResult.mk "list" "timestamp_placeholder"
          (ConfigUsed.mk cfg.max_length cfg.min_length)
          (ProcessedData.listData (items.map (mkItem cfg)) items.length
            (items.countP (fun s => validate_input s cfg)))
          (items.countP (fun s => validate_input s cfg) == items.length))) ∧
    process_data (PyValue.list [PyValue.str "a", PyValue.str "b", PyValue.str "bad value"])
        defaultConfig =
      Except.ok (ProcessResult.mk "list" "timestamp_placeholder" (ConfigUsed.mk 100 1)
        (ProcessedData.listData [ItemResult.mk "a" true 1, ItemResult.mk "b" true 1,
          ItemResult.mk "bad value" false 9] 3 2) false) := by
  constructor
  · exact process_data_list_eq
  · rfl

/- ### Claim C3 -/

/-- Claim C3: processing a dictionary whose keys are all strings succeeds
with total key count equal to the entry count, valid key count equal to
the number of keys validate_input accepts, overall validity their
equality, and a processed dictionary each of whose entries stems from an
input entry, carrying its value unchanged, its key's validity and its
value's type name. -/
theorem process_data_dict_spec :
    ∀ (cfg : TemplateConfig) (entries : List (String × PyValue)),
      process_data (PyValue.dict (entries.map (fun p => (PyValue.str p.1, p.2)))) cfg =
        Except.ok (ProcessResult.mk "dict" "timestamp_placeholder"
          (ConfigUsed.mk cfg.max_length cfg.min_length)
          (ProcessedData.dictData (buildDict cfg [] entries) entries.length
            (entries.countP (fun p => validate_input p.1 cfg)))
          (entries.countP (fun p => validate_input p.1 cfg) == entries.length)) ∧
      (∀ pr ∈ buildDict cfg [] entries, ∃ q ∈ entries,
          pr = (stripIf cfg q.1, DictEntry.mk q.2 (validate_input q.1 cfg) (typeName q.2))) := by
  intro cfg entries
  constructor
  · simp [process_data, processEntries_map_str, List.length_map]
  · intro pr hpr
    rcases mem_buildDict cfg entries [] pr hpr with h | h
    · simp at h
    · exact h

/-- Witness for claim C3 at a concrete one-entry dictionary. -/
theorem process_data_dict_spec_witness :
    process_data (PyValue.dict [(PyValue.str "key1", PyValue.int 7)]) defaultConfig =
      Except.ok (ProcessResult.mk "dict" "timestamp_placeholder" (ConfigUsed.mk 100 1)
        (ProcessedData.dictData [("key1", DictEntry.mk (PyValue.int 7) true "int")] 1 1)
        true) :=
  (process_data_dict_spec defaultConfig [("key1", PyValue.int 7)]).1

/- ### Claim C4 -/

/-- Claim C4: process_data fails with the unsupported-type error on every
value that is not a string, list or dictionary; with the element-type
error on every list containing a non-string element; and with the
key-type error on every dictionary containing a non-string key. -/
theorem process_data_type_errors :
    (∀ (cfg : TemplateConfig) (v : PyValue),
        v.isStr = false → v.isList = false → v.isDict = false →
        process_data v cfg = Except.error (TemplateError.unsupportedTypeError (typeName v))) ∧
    (∀ (cfg : TemplateConfig) (l : List PyValue), (∃ x ∈ l, x.isStr = false) →
        ∃ t, process_data (PyValue.list l) cfg =
          Except.error (TemplateError.elementTypeError t)) ∧
    (∀ (cfg : TemplateConfig) (d : List (PyValue × PyValue)),
        (∃ p ∈ d, (Prod.fst p).isStr = false) →
        process_data (PyValue.dict d) cfg = Except.error TemplateError.keyTypeError) := by
  refine ⟨?_, ?_, ?_⟩
  · intro cfg v h1 h2 h3
    cases v with
    | str s => simp [PyValue.isStr] at h1
    | list l => simp [PyValue.isList] at h2
    | dict d => simp [PyValue.isDict] at h3
    | int n => rfl
    | bool b => rfl
    | none => rfl
  · intro cfg l h
    rcases processItems_error_of_bad cfg l h with ⟨t, ht⟩
    exact ⟨t, by simp [process_data, ht]⟩
  · intro cfg d h
    simp [process_data, processEntries_error_of_bad cfg d [] 0 h]

/-- Witness for claim C4 at the three concrete failing inputs 123, the
list of 1 and 2, and the dictionary keyed by 123. -/
theorem process_data_type_errors_witness :
    process_data (PyValue.int 123) defaultConfig =
      Except.error (TemplateError.unsupportedTypeError "int") ∧
    (∃ t, process_data (PyValue.list [PyValue.int 1, PyValue.int 2]) defaultConfig =
      Except.error (TemplateError.elementTypeError t)) ∧
    process_data (PyValue.dict [(PyValue.int 123, PyValue.str "v")]) defaultConfig =
      Except.error TemplateError.keyTypeError :=
  ⟨process_data_type_errors.1 defaultConfig (PyValue.int 123) rfl rfl rfl,
   process_data_type_errors.2.1 defaultConfig [PyValue.int 1, PyValue.int 2]
     ⟨PyValue.int 1, List.mem_cons_self _ _, rfl⟩,
   process_data_type_errors.2.2 defaultConfig [(PyValue.int 123, PyValue.str "v")]
     ⟨(PyValue.int 123, PyValue.str "v"), List.mem_cons_self _ _, rfl⟩⟩

/- ### Claim C9 -/

/-- Claim C9: with strip_whitespace set, the processed dictionary is
keyed by the stripped keys; when two distinct input keys strip to the
same string the later entry overwrites the earlier one, so the processed
dictionary can hold strictly fewer entries than the reported total key
count, which still equals the input's entry count: concretely, the keys
space-a and a-space both strip to a, the surviving entry is the later
one, and the result reports total 2 over a one-entry dictionary. -/
theorem process_data_dict_stripped_keys :
    (∀ (cfg : TemplateConfig) (entries : List (String × PyValue)),
        cfg.strip_whitespace = true →
        ∀ pr ∈ buildDict cfg [] entries, ∃ q ∈ entries, pr.1 = pyStrip q.1) ∧
    process_data
        (PyValue.dict [(PyValue.str " a", PyValue.str "x"), (PyValue.str "a ", PyValue.str "y")])
        defaultConfig =
      Except.ok (ProcessResult.mk "dict" "timestamp_placeholder" (ConfigUsed.mk 100 1)
        (ProcessedData.dictData [("a", DictEntry.mk (PyValue.str "y") true "str")] 2 2)
        true) ∧
    ([("a", DictEntry.mk (PyValue.str "y") true "str")] : List (String × DictEntry)).length = 1 := by
  refine ⟨?_, rfl, rfl⟩
  intro cfg entries hstrip pr hpr
  rcases mem_buildDict cfg entries [] pr hpr with h | ⟨q, hq, he⟩
  · simp at h
  · exact ⟨q, hq, by rw [he]; simp [stripIf, hstrip]⟩

/-- Witness for claim C9: the general stripped-key clause applied to the
concrete two-entry dictionary whose keys both strip to a. -/
theorem process_data_dict_stripped_keys_witness :
    ∃ q ∈ [((" a" : String), PyValue.str "x"), (("a " : String), PyValue.str "y")],
      (("a", DictEntry.mk (PyValue.str "y") true "str") : String × DictEntry).1 = pyStrip q.1 :=
  process_data_dict_stripped_keys.1 defaultConfig
    [(" a", PyValue.str "x"), ("a ", PyValue.str "y")] rfl
    ("a", DictEntry.mk (PyValue.str "y") true "str")
    (by
      show ("a", DictEntry.mk (PyValue.str "y") true "str") ∈
        [(("a" : String), DictEntry.mk (PyValue.str "y") true "str")]
      exact List.mem_cons_self _ _)

/- ### Claim C10 -/

/-- Claim C10: in every result process_data returns for a list of
strings, each per-element record reported valid has its reported length
within the configuration's min_length and max_length, the reported
length being that of the same stripped value validation checked. -/
theorem process_data_list_valid_length_bounds :
    ∀ (cfg : TemplateConfig) (items : List String) (r : ProcessResult),
      process_data (PyValue.list (items.map PyValue.str)) cfg = Except.ok r →
      ∀ it ∈ resultItems r, it.valid = true →
        cfg.min_length ≤ (it.length : Int) ∧ (it.length : Int) ≤ cfg.max_length := by
  intro cfg items r hr it hit hv
  rw [process_data_list_eq cfg items] at hr
  injection hr with hr2
  subst hr2
  simp only [resultItems] at hit
  rcases List.mem_map.mp hit with ⟨s, hs, hmk⟩
  subst hmk
  simp only [mkItem] at hv ⊢
  exact validate_input_true_bounds hv

/-- Witness for claim C10 at the concrete one-element list whose entry is
reported valid with length 2 under the default configuration. -/
theorem process_data_list_valid_length_bounds_witness :
    defaultConfig.min_length ≤ ((ItemResult.mk "ab" true 2).length : Int) ∧
    ((ItemResult.mk "ab" true 2).length : Int) ≤ defaultConfig.max_length :=
  process_data_list_valid_length_bounds defaultConfig ["ab"]
    (ProcessResult.mk "list" "timestamp_placeholder" (ConfigUsed.mk 100 1)
      (ProcessedData.listData [ItemResult.mk "ab" true 2] 1 1) true)
    rfl (ItemResult.mk "ab" true 2)
    (by
      show ItemResult.mk "ab" true 2 ∈ [ItemResult.mk "ab" true 2]
      exact List.mem_cons_self _ _)
    rfl

end EntiriusTemplate
